import Mathlib

/-!
Verification of `assets/js/app.js` (personal-portfolio page): a shallow
embedding of its data model, localization loader, render functions and
interaction handlers, with theorems checking the specification's claims.

Modelling conventions:
* JS numbers used for scroll offsets are modelled as `Int` (the code only
  compares and subtracts them).
* JS truthiness on optional string fields (`undefined` and `""` are falsy,
  every other string truthy) is modelled with `Option String`; a JS array
  is always truthy, so an optional array field is `Option (List String)`.
* DOM target elements written by the renderer are the fields of the `Dom`
  record; `textContent` / `innerHTML` / attribute writes become field
  updates.  Template-literal HTML is reproduced with inter-tag whitespace
  normalized (dropped), which does not affect any claim under check.
* `fetch` and `response.json()` are modelled by a `Response` value passed
  in: `ok` is the HTTP status flag and `body` is the outcome of parsing
  the body as JSON.
* Exceptions are modelled with `Except`: a function that can throw returns
  its state at exit together with `Except.ok`/`Except.error`.
-/

/-! ## JSON values (what `response.json()` can produce) -/

/-- A parsed JSON document, as delivered by `response.json()`.  The loader
stores it without any shape validation. -/
inductive Json where
  | null : Json
  | bool (b : Bool) : Json
  | num (n : Int) : Json
  | str (s : String) : Json
  | arr (elems : List Json) : Json
  | obj (fields : List (String × Json)) : Json

/-- Whether a JSON value is an object carrying a field named `k`. -/
def Json.hasField : Json → String → Bool
  | .obj fields, k => fields.any fun p => p.1 == k
  | _, _ => false

/-- Follows the spec's words (sections 3 and 4.1), not the code: the
"expected document shape" requires the top-level fields `nav`, `profile`,
`skills`, `projects` and `education`.  Used to compare the spec's loader
contract with the code's actual behaviour. -/
def specExpectedShape (j : Json) : Bool :=
  j.hasField "nav" && j.hasField "profile" && j.hasField "skills" &&
    j.hasField "projects" && j.hasField "education"

/-! ## Typed data model (section 3 of the spec; the shape the renderers read) -/

structure Contact where
  email : String
  phone : String
  github : String
  website : String
  deriving Repr, DecidableEq

structure Other where
  political : String
  advantages : String
  awards : String
  language : String
  deriving Repr, DecidableEq

structure Profile where
  name : String
  title : String
  intro : String
  bio : String
  avatar : String
  tags : List String
  contact : Contact
  other : Other
  deriving Repr, DecidableEq

structure Skill where
  category : String
  level : String
  proficiency : Nat
  icon : String
  description : String
  technologies : List String
  deriving Repr, DecidableEq

structure Project where
  name : String
  link : String
  company : String
  role : String
  period : String
  description : String
  responsibilities : Option (List String)
  achievements : Option String
  technologies : List String
  deriving Repr, DecidableEq

structure Edu where
  degree : String
  university : String
  college : String
  major : String
  period : String
  deriving Repr, DecidableEq

structure Campus where
  organization : String
  department : Option String
  position : String
  period : String
  description : String
  deriving Repr, DecidableEq

structure Education where
  education : List Edu
  campus : List Campus
  deriving Repr, DecidableEq

/-- The Active Locale Data Set: `appData` once loaded and well-shaped. -/
structure Dataset where
  nav : List (String × String)
  profile : Profile
  skills : List Skill
  projects : List Project
  education : Education
  deriving Repr, DecidableEq

/-! ## DOM model -/

/-- One `.nav-link` element: its `data-nav` key, `href`, text content and
whether it carries the `active` class. -/
structure NavLink where
  key : String
  href : String
  text : String
  active : Bool
  deriving Repr, DecidableEq

/-- One `.section`/`.hero` element as seen by `updateActiveNavLink`:
its `offsetTop` and its `id` attribute. -/
structure Section where
  offsetTop : Int
  id : String
  deriving Repr, DecidableEq

/-- The render-target elements of the page, one field per DOM node (or node
content) that the render functions write. -/
structure Dom where
  navLinks : List NavLink
  avatarSrc : String
  nameText : String
  titleText : String
  introText : String
  ctaBtn0 : String
  ctaBtn1 : String
  bioText : String
  tagsHtml : String
  skillsGridHtml : String
  projectsTimelineHtml : String
  educationListHtml : String
  campusListHtml : String
  subsectionTitleText : String
  contactEmailText : String
  contactPhoneText : String
  contactGithubHref : String
  contactGithubText : String
  contactWebsiteHref : String
  contactWebsiteText : String
  contactTitle0 : String
  contactTitle1 : String
  contactTitle2 : String
  contactTitle3 : String
  otherInfoHtml : String
  footerGithubHref : String
  footerWebsiteHref : String
  deriving Repr, DecidableEq

/-! ## Localization Loader (`loadLanguage`, JSON level)

`loadLanguage` is modelled at the level it really works at: it stores the
parsed JSON body without checking its shape.  `LoaderState` is the
process-wide state it can touch, plus the rendered DOM (which it must not
touch). -/

/-- Outcome of `fetch` + `response.json()`: the HTTP `ok` flag and the JSON
parse result (`Except.error` when the body is not valid JSON, in which case
`response.json()` rejects). -/
structure Response where
  ok : Bool
  body : Except String Json

/-- Process-wide state visible to `loadLanguage`: `appData`, `currentLang`,
`document.documentElement.lang`, and the rendered DOM. -/
structure LoaderState where
  appData : Option Json
  currentLang : String
  docLang : String
  dom : Dom

/-- `loadLanguage(lang)` from app.js.  Returns the state at function exit
together with the normal/exceptional outcome.  The code throws on a non-OK
response before any assignment; `response.json()` rejects before any
assignment; on success it assigns `appData`, `currentLang` and the
document `lang` attribute (`'zh-CN'` when `lang === 'cn'`, else `'en'`)
and performs no DOM rendering. -/
def loadLanguage (lang : String) (response : Response) (st : LoaderState) :
    LoaderState × Except String Unit :=
  if response.ok = false then
    (st, .error ("Failed to load _data/data-" ++ lang ++ ".json"))
  else
    match response.body with
    | .error e => (st, .error e)
    | .ok j =>
        ({ st with
            appData := some j
            currentLang := lang
            docLang := if lang == "cn" then "zh-CN" else "en" },
          .ok ())

/-! ## Render functions

Each `renderX` mirrors the corresponding function in app.js, as a pure
update of the `Dom` record from a (typed) data set and the current
language. -/

/-- JS object property lookup `nav[key]` over the `nav` mapping: `none`
models `undefined` (absent key). -/
def lookupNav (nav : List (String × String)) (key : String) : Option String :=
  (nav.find? fun p => p.1 == key).map Prod.snd

/-- The per-link body of `renderNav`'s forEach: `if (nav[key])` overwrites
the link text; `undefined` and `""` are falsy, so those links keep their
previous text. -/
def navUpd (nav : List (String × String)) (link : NavLink) : NavLink :=
  match lookupNav nav link.key with
  | some v => if v == "" then link else { link with text := v }
  | none => link

/-- `renderNav()` from app.js. -/
def renderNav (data : Dataset) (d : Dom) : Dom :=
  { d with navLinks := d.navLinks.map (navUpd data.nav) }

/-- `renderHero()` from app.js: avatar, name, title, intro, and the two CTA
button captions chosen by a two-way branch on the current language. -/
def renderHero (data : Dataset) (lang : String) (d : Dom) : Dom :=
  { d with
      avatarSrc := data.profile.avatar
      nameText := data.profile.name
      titleText := data.profile.title
      introText := data.profile.intro
      ctaBtn0 := if lang == "cn" then "查看项目" else "View Projects"
      ctaBtn1 := if lang == "cn" then "联系我" else "Contact Me" }

/-- `renderAbout()` from app.js: bio text and the tags innerHTML. -/
def renderAbout (data : Dataset) (d : Dom) : Dom :=
  { d with
      bioText := data.profile.bio
      tagsHtml := String.join (data.profile.tags.map fun tag =>
        "<span class=\"tag\">" ++ tag ++ "</span>") }

/-- One skill card of `renderSkills()`.  The progress bar is written with
`width: 0%`; the later `setTimeout` animation that widens it mutates
element style only, not this markup. -/
def skillCard (skill : Skill) : String :=
  "<div class=\"skill-card\"><div class=\"skill-header\"><div class=\"skill-icon\">" ++
    "<ion-icon name=\"" ++ skill.icon ++ "\"></ion-icon></div>" ++
    "<div class=\"skill-title\"><div class=\"skill-name\">" ++ skill.category ++
    "</div><div class=\"skill-level\">" ++ skill.level ++ "</div></div></div>" ++
    "<div class=\"skill-progress\"><div class=\"skill-progress-bar\" data-progress=\"" ++
    toString skill.proficiency ++ "\" style=\"width: 0%\"></div></div>" ++
    "<div class=\"skill-description\">" ++ skill.description ++ "</div>" ++
    "<div class=\"skill-technologies\">" ++
    String.join (skill.technologies.map fun tech =>
      "<span class=\"tech-tag\">" ++ tech ++ "</span>") ++
    "</div></div>"

/-- `renderSkills()` from app.js. -/
def renderSkills (data : Dataset) (d : Dom) : Dom :=
  { d with skillsGridHtml := String.join (data.skills.map skillCard) }

/-- The `${project.responsibilities ? ... : ''}` block of a project card.
A JS array is truthy even when empty, so any present list produces the
block; an absent field produces no markup. -/
def respBlock (lang : String) (project : Project) : String :=
  match project.responsibilities with
  | some resp =>
      "<div class=\"project-responsibilities\"><h4>" ++
        (if lang == "cn" then "职责：" else "Responsibilities:") ++
        "</h4><ul>" ++
        String.join (resp.map fun r => "<li>" ++ r ++ "</li>") ++
        "</ul></div>"
  | none => ""

/-- The `${project.achievements ? ... : ''}` block of a project card.  The
field is a string, and the empty string is falsy in JS, so a present-but-
empty value produces no markup. -/
def achBlock (lang : String) (project : Project) : String :=
  match project.achievements with
  | some a =>
      if a == "" then ""
      else
        "<div class=\"project-achievements\"><h4>" ++
          (if lang == "cn" then "成果：" else "Achievements:") ++
          "</h4><p>" ++ a ++ "</p></div>"
  | none => ""

/-- One project card of `renderProjects()`. -/
def projectCard (lang : String) (project : Project) : String :=
  "<div class=\"project-card\"><div class=\"project-header\"><div>" ++
    "<a href=\"" ++ project.link ++ "\" target=\"_blank\" class=\"project-name\">" ++
    project.name ++ "</a><div class=\"project-meta\"><span>" ++
    "<ion-icon name=\"business-outline\"></ion-icon>" ++ project.company ++
    "</span><span><ion-icon name=\"person-outline\"></ion-icon>" ++ project.role ++
    "</span></div></div><div class=\"project-period\">" ++ project.period ++
    "</div></div><div class=\"project-description\">" ++ project.description ++
    "</div>" ++
    respBlock lang project ++
    achBlock lang project ++
    "<div class=\"project-technologies\">" ++
    String.join (project.technologies.map fun tech =>
      "<span class=\"tech-tag\">" ++ tech ++ "</span>") ++
    "</div></div>"

/-- `renderProjects()` from app.js. -/
def renderProjects (data : Dataset) (lang : String) (d : Dom) : Dom :=
  { d with projectsTimelineHtml := String.join (data.projects.map (projectCard lang)) }

/-- One education item of `renderEducation()`. -/
def eduItem (edu : Edu) : String :=
  "<div class=\"education-item\"><div class=\"education-header\"><div>" ++
    "<div class=\"education-degree\">" ++ edu.degree ++ " | " ++ edu.university ++
    "</div><div class=\"education-university\">" ++ edu.college ++
    "</div><div class=\"education-major\">" ++ edu.major ++
    "</div></div><div class=\"education-period\">" ++ edu.period ++
    "</div></div></div>"

/-- One campus item of `renderEducation()`; `${camp.department ? ... : ''}`
is JS truthiness on an optional string. -/
def campusItem (camp : Campus) : String :=
  "<div class=\"campus-item\"><div class=\"campus-header\"><div>" ++
    "<div class=\"campus-org\">" ++ camp.organization ++
    (match camp.department with
      | some dep => if dep == "" then "" else " · " ++ dep
      | none => "") ++
    "</div><div class=\"campus-position\">" ++ camp.position ++
    "</div></div><div class=\"campus-period\">" ++ camp.period ++
    "</div></div><div class=\"campus-description\">" ++ camp.description ++
    "</div></div>"

/-- `renderEducation()` from app.js (the subsection title element is
assumed present, as in the deployed markup). -/
def renderEducation (data : Dataset) (lang : String) (d : Dom) : Dom :=
  { d with
      educationListHtml := String.join (data.education.education.map eduItem)
      campusListHtml := String.join (data.education.campus.map campusItem)
      subsectionTitleText := if lang == "cn" then "校园经历" else "Campus Experience" }

/-- The `other-info` innerHTML of `renderContact()`: four labels chosen by
language, zipped with the four values of `profile.other`. -/
def otherInfoHtml (lang : String) (other : Other) : String :=
  String.join
    (((if lang == "cn" then
          ["政治身份", "个人优势", "奖项荣誉", "语言能力"]
        else
          ["Political Status", "Strengths", "Awards", "Language"]).zip
        [other.political, other.advantages, other.awards, other.language]).map
      fun lv => "<div class=\"other-item\"><strong>" ++ lv.1 ++ "</strong><p>" ++
        lv.2 ++ "</p></div>")

/-- `renderContact()` from app.js.  JS `replace('https://', '')` removes
the first occurrence of the substring; for the single-scheme URLs in scope
this agrees with `String.replace`. -/
def renderContact (data : Dataset) (lang : String) (d : Dom) : Dom :=
  { d with
      contactEmailText := data.profile.contact.email
      contactPhoneText := data.profile.contact.phone
      contactGithubHref := data.profile.contact.github
      contactGithubText := "GGyongfeng"
      contactWebsiteHref := data.profile.contact.website
      contactWebsiteText := data.profile.contact.website.replace "https://" ""
      contactTitle0 := if lang == "cn" then "邮箱" else "Email"
      contactTitle1 := if lang == "cn" then "电话" else "Phone"
      contactTitle2 := "GitHub"
      contactTitle3 := if lang == "cn" then "网站" else "Website"
      otherInfoHtml := otherInfoHtml lang data.profile.other }

/-- `renderFooter()` from app.js. -/
def renderFooter (data : Dataset) (d : Dom) : Dom :=
  { d with
      footerGithubHref := data.profile.contact.github
      footerWebsiteHref := data.profile.contact.website }

/-- `renderAll()` from app.js: the eight sub-renderers in source order. -/
def renderAll (data : Dataset) (lang : String) (d : Dom) : Dom :=
  renderFooter data
    (renderContact data lang
      (renderEducation data lang
        (renderProjects data lang
          (renderSkills data
            (renderAbout data
              (renderHero data lang
                (renderNav data d)))))))

/-! ## Interaction Controller -/

/-- The `current` accumulator of `updateActiveNavLink`'s forEach over
sections: start with `''`; each section with
`window.scrollY >= section.offsetTop - 100` overwrites it with its id, so
the last qualifying section in document order wins. -/
def activeSectionId (sections : List Section) (scrollY : Int) : String :=
  sections.foldl
    (fun current s => if scrollY ≥ s.offsetTop - 100 then s.id else current) ""

/-- `updateActiveNavLink()` from app.js: every link drops the `active`
class, then the link whose `href` is `'#' + current` regains it. -/
def updateActiveNavLink (sections : List Section) (scrollY : Int)
    (links : List NavLink) : List NavLink :=
  links.map fun link =>
    { link with active := link.href == "#" ++ activeSectionId sections scrollY }

/-- The id of the last section in the list whose `offsetTop` is at most
`scrollY + 100` (empty string when no section qualifies): the value the
spec says the scroll handler should highlight. -/
def lastQualifying (sections : List Section) (scrollY : Int) : String :=
  match (sections.filter fun s => scrollY ≥ s.offsetTop - 100).getLast? with
  | some s => s.id
  | none => ""

/-- Process-wide state visible to `toggleLanguage`: the typed data set
(the renderers assume the expected shape), the locale code, the document
`lang` attribute, the rendered DOM, and the toggle button's own
disabled/opacity/label state. -/
structure AppState where
  appData : Option Dataset
  currentLang : String
  docLang : String
  dom : Dom
  langToggleDisabled : Bool
  langToggleOpacity : String
  langToggleText : String
  deriving Repr, DecidableEq

/-- `toggleLanguage()` from app.js, at the typed level.  `outcome` is what
`loadLanguage(newLang)` produces for the flipped locale: `Except.ok data`
when the fetch+parse succeeds, `Except.error` when it throws.  Returns the
final state and whether the failure `alert` was shown.  The `finally`
block re-enables the control on both paths; on failure nothing else is
touched (the throw in `loadLanguage` happens before its state writes, and
`renderAll` is only reached after a successful load). -/
def toggleLanguage (outcome : Except String Dataset) (st : AppState) :
    AppState × Bool :=
  let newLang := if st.currentLang == "cn" then "en" else "cn"
  let st1 := { st with langToggleDisabled := true, langToggleOpacity := "0.5" }
  match outcome with
  | .ok data =>
      let st2 := { st1 with
        appData := some data
        currentLang := newLang
        docLang := if newLang == "cn" then "zh-CN" else "en" }
      let st3 := { st2 with dom := renderAll data newLang st2.dom }
      let st4 := { st3 with
        langToggleText := if newLang == "cn" then "EN" else "中文" }
      ({ st4 with langToggleDisabled := false, langToggleOpacity := "1" }, false)
  | .error _ =>
      ({ st1 with langToggleDisabled := false, langToggleOpacity := "1" }, true)

/-! ## Concrete fixtures (for examples, witnesses and counterexamples) -/

/-- A `Dom` with every target empty and no nav links. -/
def emptyDom : Dom :=
  { navLinks := [], avatarSrc := "", nameText := "", titleText := "",
    introText := "", ctaBtn0 := "", ctaBtn1 := "", bioText := "",
    tagsHtml := "", skillsGridHtml := "", projectsTimelineHtml := "",
    educationListHtml := "", campusListHtml := "", subsectionTitleText := "",
    contactEmailText := "", contactPhoneText := "", contactGithubHref := "",
    contactGithubText := "", contactWebsiteHref := "", contactWebsiteText := "",
    contactTitle0 := "", contactTitle1 := "", contactTitle2 := "",
    contactTitle3 := "", otherInfoHtml := "", footerGithubHref := "",
    footerWebsiteHref := "" }

/-- A minimal data set with a given nav mapping and empty everything else. -/
def baseData (nav : List (String × String)) : Dataset :=
  { nav := nav
    profile :=
      { name := "", title := "", intro := "", bio := "", avatar := "",
        tags := [],
        contact := { email := "", phone := "", github := "", website := "" },
        other := { political := "", advantages := "", awards := "",
                   language := "" } }
    skills := []
    projects := []
    education := { education := [], campus := [] } }

/-- The spec's boundary example: section offsets 0, 500 and 1200. -/
def demoSections : List Section :=
  [{ offsetTop := 0, id := "s1" }, { offsetTop := 500, id := "s2" },
   { offsetTop := 1200, id := "s3" }]

/-- Nav links matching `demoSections`. -/
def demoLinks : List NavLink :=
  [{ key := "s1", href := "#s1", text := "One", active := true },
   { key := "s2", href := "#s2", text := "Two", active := false },
   { key := "s3", href := "#s3", text := "Three", active := false }]

/-- A loader state fixture. -/
def loaderSt0 : LoaderState :=
  { appData := none, currentLang := "cn", docLang := "zh-CN", dom := emptyDom }

/-- Round-trip counterexample data: the `cn` data set maps the nav key
`about` to the empty string (falsy), the `en` data set to `About`. -/
def cnDataCex : Dataset := baseData [("about", "")]

/-- Round-trip counterexample data, `en` side. -/
def enDataCex : Dataset := baseData [("about", "About")]

/-- Round-trip counterexample DOM: one nav link whose initial text differs
from the `en` label. -/
def domCex : Dom :=
  { emptyDom with
      navLinks := [{ key := "about", href := "#about", text := "关于",
                     active := false }] }

/-- Round-trip counterexample app state: `cn` active, DOM freshly rendered
from the `cn` data set. -/
def stCex : AppState :=
  { appData := some cnDataCex, currentLang := "cn", docLang := "zh-CN",
    dom := renderAll cnDataCex "cn" domCex, langToggleDisabled := false,
    langToggleOpacity := "1", langToggleText := "EN" }

/-- Round-trip witness data: every nav key has a nonempty label in both
locales. -/
def cnDataW : Dataset := baseData [("about", "关于")]

/-- Round-trip witness data, `en` side. -/
def enDataW : Dataset := baseData [("about", "About")]

/-- Round-trip witness DOM. -/
def domW : Dom :=
  { emptyDom with
      navLinks := [{ key := "about", href := "#about", text := "init",
                     active := false }] }

/-- Round-trip witness app state: `cn` active, DOM rendered from `cnDataW`. -/
def stW : AppState :=
  { appData := some cnDataW, currentLang := "cn", docLang := "zh-CN",
    dom := renderAll cnDataW "cn" domW, langToggleDisabled := false,
    langToggleOpacity := "1", langToggleText := "EN" }

/-- A project whose `achievements` field is present but empty (falsy). -/
def projAchEmpty : Project :=
  { name := "p", link := "", company := "", role := "", period := "",
    description := "", responsibilities := none, achievements := some "",
    technologies := [] }

/-- A project whose `responsibilities` field is present but the empty list
(truthy, since JS arrays are truthy). -/
def projRespEmpty : Project :=
  { name := "q", link := "", company := "", role := "", period := "",
    description := "", responsibilities := some [], achievements := none,
    technologies := [] }

/-- A DOM fixture with two nav links for the `renderNav` frame theorems:
`home` has a nonempty label in `navDataW`, `gone` is absent from it. -/
def domNavW : Dom :=
  { emptyDom with
      navLinks := [{ key := "home", href := "#home", text := "old",
                     active := false },
                   { key := "gone", href := "#gone", text := "keep",
                     active := false }] }

/-- Nav data for the `renderNav` frame witness. -/
def navDataW : Dataset := baseData [("home", "Home")]

/-! ## Helper lemmas -/

/-- A string of positive length is not the empty string. -/
theorem ne_empty_of_length_pos (s : String) (h : 0 < s.length) : s ≠ "" := by
  intro he
  rw [he] at h
  simp at h

/-- C4/C5 helper: `navUpd` never changes a link's `data-nav` key. -/
theorem navUpd_key (nav : List (String × String)) (l : NavLink) :
    (navUpd nav l).key = l.key := by
  unfold navUpd
  rcases lookupNav nav l.key with _ | v
  · rfl
  · by_cases hv : (v == "") = true <;> simp [hv]

/-- C4/C5 helper: `navUpd` changes at most the link's text. -/
theorem navUpd_eq_set_text (nav : List (String × String)) (l : NavLink) :
    ∃ t, navUpd nav l = { l with text := t } := by
  unfold navUpd
  rcases lookupNav nav l.key with _ | v
  · exact ⟨l.text, rfl⟩
  · by_cases hv : (v == "") = true
    · exact ⟨l.text, by simp [hv]⟩
    · exact ⟨v, by simp [hv]⟩

/-- C4 helper: applying the nav-link update twice equals applying it once. -/
theorem navUpd_idem (nav : List (String × String)) (l : NavLink) :
    navUpd nav (navUpd nav l) = navUpd nav l := by
  rcases h : lookupNav nav l.key with _ | v
  · have h1 : navUpd nav l = l := by unfold navUpd; rw [h]
    rw [h1, h1]
  · by_cases hv : (v == "") = true
    · have h1 : navUpd nav l = l := by unfold navUpd; rw [h]; simp [hv]
      rw [h1, h1]
    · have h1 : navUpd nav l = { l with text := v } := by
        unfold navUpd; rw [h]; simp [hv]
      have hk : ({ l with text := v } : NavLink).key = l.key := rfl
      rw [h1]
      unfold navUpd
      rw [hk, h]
      simp [hv]

/-- C5 helper: when the lookup of a link's key yields a truthy label, the
updated link is the link with exactly that text. -/
theorem navUpd_of_lookup (nav : List (String × String)) (l : NavLink)
    (v : String) (h : lookupNav nav l.key = some v) (hv : v ≠ "") :
    navUpd nav l = { l with text := v } := by
  unfold navUpd
  rw [h]
  simp [beq_eq_false_iff_ne.mpr hv]

/-! ## Claim C1: loader state is unchanged on a failed load -/

/-- C1: for every locale code, if `loadLanguage` fails (non-OK response or
a body that fails to parse), then `appData`, `currentLang` and the
document-level language attribute — indeed the whole loader-visible state,
rendered DOM included — are left unchanged. -/
theorem loadLanguage_state_unchanged_on_error (lang : String)
    (response : Response) (st : LoaderState) (e : String)
    (h : (loadLanguage lang response st).2 = .error e) :
    (loadLanguage lang response st).1 = st := by
  unfold loadLanguage
  rcases hok : response.ok with _ | _
  · simp [hok]
  · rcases hb : response.body with e' | j
    · simp [hok, hb]
    · exfalso
      unfold loadLanguage at h
      simp [hok, hb] at h

/-- Witness for C1 at a concrete failing fetch. -/
theorem loadLanguage_state_unchanged_on_error_witness :
    (loadLanguage "en" { ok := false, body := .error "bad" } loaderSt0).2
        = Except.error "Failed to load _data/data-en.json"
    ∧ (loadLanguage "en" { ok := false, body := .error "bad" } loaderSt0).1
        = loaderSt0 :=
  ⟨rfl, loadLanguage_state_unchanged_on_error "en"
    { ok := false, body := .error "bad" } loaderSt0
    "Failed to load _data/data-en.json" rfl⟩

/-! ## Claim C3: when exactly does `loadLanguage` raise an error -/

/-- C3 counterexample: a body that is valid JSON (`{}`) but lacks every
required top-level field of the expected document shape still loads
successfully — `loadLanguage` performs no shape validation, contrary to
the claim that such bodies cause a load failure. -/
theorem loadLanguage_no_shape_check_cex :
    specExpectedShape (Json.obj []) = false
    ∧ (loadLanguage "en" { ok := true, body := .ok (Json.obj []) }
        loaderSt0).2 = Except.ok () :=
  ⟨rfl, rfl⟩

/-- C3 (amended): `loadLanguage` raises an error if and only if the
response is non-OK or the body fails to parse as JSON; the expected
document shape is not checked. -/
theorem loadLanguage_error_iff (lang : String) (response : Response)
    (st : LoaderState) :
    (∃ e, (loadLanguage lang response st).2 = .error e) ↔
      response.ok = false ∨ ∃ e, response.body = .error e := by
  unfold loadLanguage
  rcases hok : response.ok with _ | _ <;>
    rcases hb : response.body with e | j <;> simp [hok, hb]

/-! ## Claim C8: a successful load writes exactly the three state fields -/

/-- C8: a successful `loadLanguage` writes exactly `appData` (the parsed
body), `currentLang` (the requested code) and the document language
attribute (`zh-CN` for `cn`, `en` for `en`), leaving the rendered DOM —
the only other loader-visible state — untouched. -/
theorem loadLanguage_success_frame (lang : String) (response : Response)
    (st : LoaderState) (j : Json) (hok : response.ok = true)
    (hb : response.body = .ok j) :
    (loadLanguage lang response st).1 =
      { appData := some j, currentLang := lang,
        docLang := if lang == "cn" then "zh-CN" else "en", dom := st.dom }
    ∧ (loadLanguage lang response st).2 = Except.ok ()
    ∧ (lang = "cn" → (loadLanguage lang response st).1.docLang = "zh-CN")
    ∧ (lang = "en" → (loadLanguage lang response st).1.docLang = "en") := by
  have h1 : (loadLanguage lang response st).1 =
      { appData := some j, currentLang := lang,
        docLang := if lang == "cn" then "zh-CN" else "en", dom := st.dom } := by
    unfold loadLanguage
    simp [hok, hb]
  refine ⟨h1, ?_, ?_, ?_⟩
  · unfold loadLanguage
    simp [hok, hb]
  · intro hl
    subst hl
    rw [h1]
    simp
  · intro hl
    subst hl
    rw [h1]
    simp

/-- Witness for C8 at a concrete successful fetch. -/
theorem loadLanguage_success_frame_witness :
    (loadLanguage "cn" { ok := true, body := .ok (Json.obj []) }
        loaderSt0).1 =
      { appData := some (Json.obj []), currentLang := "cn",
        docLang := "zh-CN", dom := loaderSt0.dom } := by
  have h := loadLanguage_success_frame "cn"
    { ok := true, body := .ok (Json.obj []) } loaderSt0 (Json.obj []) rfl rfl
  simpa using h.1

/-- Structure lemma: `renderAll` in one step.  Every target is overwritten
with a value depending only on the data set and the language, except the
nav links, whose update is the conditional per-link overwrite. -/
theorem renderAll_eq (data : Dataset) (lang : String) (d : Dom) :
    renderAll data lang d =
      { navLinks := d.navLinks.map (navUpd data.nav)
        avatarSrc := data.profile.avatar
        nameText := data.profile.name
        titleText := data.profile.title
        introText := data.profile.intro
        ctaBtn0 := if lang == "cn" then "查看项目" else "View Projects"
        ctaBtn1 := if lang == "cn" then "联系我" else "Contact Me"
        bioText := data.profile.bio
        tagsHtml := String.join (data.profile.tags.map fun tag =>
          "<span class=\"tag\">" ++ tag ++ "</span>")
        skillsGridHtml := String.join (data.skills.map skillCard)
        projectsTimelineHtml :=
          String.join (data.projects.map (projectCard lang))
        educationListHtml := String.join (data.education.education.map eduItem)
        campusListHtml := String.join (data.education.campus.map campusItem)
        subsectionTitleText :=
          if lang == "cn" then "校园经历" else "Campus Experience"
        contactEmailText := data.profile.contact.email
        contactPhoneText := data.profile.contact.phone
        contactGithubHref := data.profile.contact.github
        contactGithubText := "GGyongfeng"
        contactWebsiteHref := data.profile.contact.website
        contactWebsiteText := data.profile.contact.website.replace "https://" ""
        contactTitle0 := if lang == "cn" then "邮箱" else "Email"
        contactTitle1 := if lang == "cn" then "电话" else "Phone"
        contactTitle2 := "GitHub"
        contactTitle3 := if lang == "cn" then "网站" else "Website"
        otherInfoHtml := otherInfoHtml lang data.profile.other
        footerGithubHref := data.profile.contact.github
        footerWebsiteHref := data.profile.contact.website } := by
  cases d
  rfl

/-! ## Claim C4: `renderAll` is idempotent -/

/-- C4: rendering twice from the same data set and language produces the
same content in every DOM target as rendering once. -/
theorem renderAll_idem (data : Dataset) (lang : String) (d : Dom) :
    renderAll data lang (renderAll data lang d) = renderAll data lang d := by
  rw [renderAll_eq data lang d, renderAll_eq]
  congr 1
  show (d.navLinks.map (navUpd data.nav)).map (navUpd data.nav)
      = d.navLinks.map (navUpd data.nav)
  rw [List.map_map]
  exact List.map_congr_left fun l _ => by
    simp only [Function.comp_apply, navUpd_idem]

/-! ## Claim C2: the scroll handler highlights the last qualifying section -/

/-- Helper for C2: the forEach accumulator computes the id of the last
section whose `offsetTop - 100` is at most the scroll position. -/
theorem foldl_current_eq (y : Int) (l : List Section) (cur : String) :
    l.foldl (fun current s => if y ≥ s.offsetTop - 100 then s.id else current)
        cur
      = match (l.filter fun s => y ≥ s.offsetTop - 100).getLast? with
        | some s => s.id
        | none => cur := by
  induction l using List.reverseRecOn with
  | nil => rfl
  | append_singleton l a ih =>
      rw [List.foldl_append, List.filter_append, ih]
      by_cases hp : y ≥ a.offsetTop - 100
      · have hp' : a.offsetTop ≤ y + 100 := by omega
        simp [hp, hp', List.getLast?_concat]
      · have hp' : ¬a.offsetTop ≤ y + 100 := by omega
        simp [hp, hp']

/-- Helper for C2: `activeSectionId` equals the last-qualifying-section id. -/
theorem activeSectionId_eq (sections : List Section) (y : Int) :
    activeSectionId sections y = lastQualifying sections y := by
  unfold activeSectionId lastQualifying
  rw [foldl_current_eq]

/-- C2: for sections in document order with monotone top offsets,
`updateActiveNavLink` marks active exactly the links pointing at the last
section whose top offset satisfies the lookahead-100 condition; and on the
spec's example offsets 0/500/1200, scroll 590 and 1090 mark the second
section and 1100 marks the third. -/
theorem updateActiveNavLink_marks_last (sections : List Section) (y : Int)
    (links : List NavLink)
    (hsorted : sections.Chain' fun a b => a.offsetTop ≤ b.offsetTop) :
    updateActiveNavLink sections y links
        = links.map (fun l =>
            { l with active := l.href == "#" ++ lastQualifying sections y })
    ∧ updateActiveNavLink demoSections 590 demoLinks
        = [{ key := "s1", href := "#s1", text := "One", active := false },
           { key := "s2", href := "#s2", text := "Two", active := true },
           { key := "s3", href := "#s3", text := "Three", active := false }]
    ∧ updateActiveNavLink demoSections 1090 demoLinks
        = [{ key := "s1", href := "#s1", text := "One", active := false },
           { key := "s2", href := "#s2", text := "Two", active := true },
           { key := "s3", href := "#s3", text := "Three", active := false }]
    ∧ updateActiveNavLink demoSections 1100 demoLinks
        = [{ key := "s1", href := "#s1", text := "One", active := false },
           { key := "s2", href := "#s2", text := "Two", active := false },
           { key := "s3", href := "#s3", text := "Three", active := true }] := by
  refine ⟨?_, by decide, by decide, by decide⟩
  unfold updateActiveNavLink
  rw [activeSectionId_eq]

/-- Witness for C2 at the spec's example offsets. -/
theorem updateActiveNavLink_marks_last_witness :
    updateActiveNavLink demoSections 590 demoLinks
      = demoLinks.map (fun l =>
          { l with active := l.href == "#" ++ lastQualifying demoSections 590 }) :=
  (updateActiveNavLink_marks_last demoSections 590 demoLinks
    (by simp [demoSections])).1

/-! ## Claim C9: `renderNav` overwrites only truthy-labelled links -/

/-- C9: `renderNav` overwrites a nav link's text only when its `data-nav`
key maps to a truthy (present and nonempty) label; a link whose key is
absent or maps to the empty string is left entirely unchanged. -/
theorem renderNav_overwrites_only_truthy (data : Dataset) (d : Dom) (i : Nat)
    (h : i < d.navLinks.length)
    (h2 : i < (renderNav data d).navLinks.length) :
    ((lookupNav data.nav (d.navLinks.get ⟨i, h⟩).key = none
        ∨ lookupNav data.nav (d.navLinks.get ⟨i, h⟩).key = some "") →
      (renderNav data d).navLinks.get ⟨i, h2⟩ = d.navLinks.get ⟨i, h⟩)
    ∧ (∀ v, lookupNav data.nav (d.navLinks.get ⟨i, h⟩).key = some v → v ≠ "" →
        (renderNav data d).navLinks.get ⟨i, h2⟩ =
          { d.navLinks.get ⟨i, h⟩ with text := v }) := by
  have hget : (renderNav data d).navLinks.get ⟨i, h2⟩
      = navUpd data.nav (d.navLinks.get ⟨i, h⟩) := by
    simp [renderNav, List.get_eq_getElem, List.getElem_map]
  constructor
  · rintro (hl | hl) <;> rw [hget] <;> unfold navUpd <;> rw [hl] <;> simp
  · intro v hv hne
    rw [hget]
    exact navUpd_of_lookup data.nav _ v hv hne

/-- Witness for C9: one link with a truthy label is overwritten, one with
an absent key keeps its text. -/
theorem renderNav_overwrites_only_truthy_witness :
    (renderNav navDataW domNavW).navLinks.get ⟨1, by decide⟩
        = domNavW.navLinks.get ⟨1, by decide⟩
    ∧ (renderNav navDataW domNavW).navLinks.get ⟨0, by decide⟩
        = { domNavW.navLinks.get ⟨0, by decide⟩ with text := "Home" } := by
  have hAbsent := renderNav_overwrites_only_truthy navDataW domNavW 1
    (by decide) (by decide)
  have hTruthy := renderNav_overwrites_only_truthy navDataW domNavW 0
    (by decide) (by decide)
  exact ⟨hAbsent.1 (Or.inl rfl), hTruthy.2 "Home" rfl (by decide)⟩

/-! ## Claims C7 and C10: optional project blocks and JS truthiness -/

/-- C7 counterexample: a project whose `achievements` field is present but
equal to the empty string produces no achievements block, refuting the
claim that a block appears whenever the field is present. -/
theorem achievements_block_cex :
    projAchEmpty.achievements.isSome = true
    ∧ achBlock "en" projAchEmpty = "" :=
  ⟨rfl, rfl⟩

/-- C7 (amended): a project fragment contains a responsibilities block iff
the `responsibilities` field is present (a JS array is truthy even when
empty), and an achievements block iff the `achievements` field is present
and nonempty (the empty string is falsy); an entry lacking either field
produces no markup for that block. -/
theorem projectBlocks_present_iff_truthy (lang : String) (p : Project) :
    (respBlock lang p ≠ "" ↔ p.responsibilities.isSome = true)
    ∧ (achBlock lang p ≠ "" ↔ ∃ s, p.achievements = some s ∧ s ≠ "") := by
  constructor
  · constructor
    · intro hne
      rcases hr : p.responsibilities with _ | resp
      · exfalso
        apply hne
        unfold respBlock
        rw [hr]
      · simp
    · intro _
      rcases hr : p.responsibilities with _ | resp
      · rename_i hs
        rw [hr] at hs
        simp at hs
      · unfold respBlock
        rw [hr]
        apply ne_empty_of_length_pos
        simp only [String.length_append]
        have hp : 0 <
            ("<div class=\"project-responsibilities\"><h4>" : String).length := by
          decide
        omega
  · constructor
    · intro hne
      rcases ha : p.achievements with _ | a
      · exfalso
        apply hne
        unfold achBlock
        rw [ha]
      · by_cases he : a = ""
        · exfalso
          apply hne
          unfold achBlock
          rw [ha]
          simp [he]
        · exact ⟨a, rfl, he⟩
    · rintro ⟨s, hs, hne⟩
      have hb : (s == "") = false := beq_eq_false_iff_ne.mpr hne
      unfold achBlock
      rw [hs]
      simp only [hb, Bool.false_eq_true, if_false]
      apply ne_empty_of_length_pos
      simp only [String.length_append]
      have hp : 0 <
          ("<div class=\"project-achievements\"><h4>" : String).length := by
        decide
      omega

/-- C10: presence of an optional project field is tested by truthiness:
a present-but-empty `achievements` string yields no block, while a
present-but-empty `responsibilities` list still yields a block with a
heading and an empty list. -/
theorem truthiness_not_presence (lang : String) (p q : Project)
    (hp : p.achievements = some "") (hq : q.responsibilities = some []) :
    achBlock lang p = ""
    ∧ respBlock lang q =
        "<div class=\"project-responsibilities\"><h4>" ++
          (if lang == "cn" then "职责：" else "Responsibilities:") ++
          "</h4><ul>" ++ "</ul></div>"
    ∧ respBlock lang q ≠ "" := by
  refine ⟨?_, ?_, ?_⟩
  · unfold achBlock
    rw [hp]
    rfl
  · unfold respBlock
    rw [hq]
    by_cases hcn : (lang == "cn") = true
    · simp only [hcn, if_true]
      decide
    · simp only [hcn, if_false]
      decide
  · unfold respBlock
    rw [hq]
    by_cases hcn : (lang == "cn") = true
    · simp only [hcn, if_true]
      decide
    · simp only [hcn, if_false]
      decide

/-- Witness for C10 at concrete projects. -/
theorem truthiness_not_presence_witness :
    achBlock "en" projAchEmpty = "" ∧ respBlock "en" projRespEmpty ≠ "" := by
  have h := truthiness_not_presence "en" projAchEmpty projRespEmpty rfl rfl
  exact ⟨h.1, h.2.2⟩

/-! ## Claim C6: the toggle always re-enables; failures change nothing -/

/-- C6: after `toggleLanguage` completes, the toggle control is re-enabled
(disabled flag cleared, opacity restored) whether the load succeeded or
failed; and on a failed load the alert is surfaced and the locale code,
the rendered DOM, the data set, the document language attribute and the
toggle label are all unchanged. -/
theorem toggleLanguage_reenables_and_error_frame
    (outcome : Except String Dataset) (st : AppState) :
    ((toggleLanguage outcome st).1.langToggleDisabled = false)
    ∧ ((toggleLanguage outcome st).1.langToggleOpacity = "1")
    ∧ (∀ e, outcome = .error e →
        (toggleLanguage outcome st).2 = true
        ∧ (toggleLanguage outcome st).1.currentLang = st.currentLang
        ∧ (toggleLanguage outcome st).1.dom = st.dom
        ∧ (toggleLanguage outcome st).1.appData = st.appData
        ∧ (toggleLanguage outcome st).1.docLang = st.docLang
        ∧ (toggleLanguage outcome st).1.langToggleText = st.langToggleText) := by
  rcases outcome with e | data
  · exact ⟨rfl, rfl, fun e' he => ⟨rfl, rfl, rfl, rfl, rfl, rfl⟩⟩
  · refine ⟨rfl, rfl, ?_⟩
    intro e' he
    cases he

/-- Witness for C6 at a concrete failing load. -/
theorem toggleLanguage_reenables_witness :
    (toggleLanguage (Except.error "boom") stW).1.langToggleDisabled = false
    ∧ (toggleLanguage (Except.error "boom") stW).2 = true
    ∧ (toggleLanguage (Except.error "boom") stW).1.dom = stW.dom := by
  have h := toggleLanguage_reenables_and_error_frame (Except.error "boom") stW
  exact ⟨h.1, (h.2.2 "boom" rfl).1, (h.2.2 "boom" rfl).2.2.1⟩

/-! ## Claim C5: locale round-trip -/

/-- Helper for C5: a render under the original data set and language,
followed by a render under the other locale and back, restores the first
render, provided every nav link key has a truthy label in the original
data set. -/
theorem renderAll_roundtrip (dL dL' : Dataset) (L L' : String) (d : Dom)
    (hnav : ∀ l ∈ d.navLinks, ∃ v, lookupNav dL.nav l.key = some v ∧ v ≠ "") :
    renderAll dL L (renderAll dL' L' (renderAll dL L d))
      = renderAll dL L d := by
  rw [renderAll_eq dL L d, renderAll_eq dL' L', renderAll_eq dL L]
  congr 1
  show ((d.navLinks.map (navUpd dL.nav)).map (navUpd dL'.nav)).map
        (navUpd dL.nav)
      = d.navLinks.map (navUpd dL.nav)
  rw [List.map_map, List.map_map]
  apply List.map_congr_left
  intro l hl
  rcases hnav l hl with ⟨v, hv, hvne⟩
  simp only [Function.comp_apply]
  have h1 : navUpd dL.nav l = { l with text := v } :=
    navUpd_of_lookup dL.nav l v hv hvne
  obtain ⟨t, ht⟩ := navUpd_eq_set_text dL'.nav { l with text := v }
  rw [h1, ht]
  have h3 : navUpd dL.nav { { l with text := v } with text := t }
      = { { { l with text := v } with text := t } with text := v } :=
    navUpd_of_lookup dL.nav { { l with text := v } with text := t } v hv hvne
  rw [h3]

/-- C5 counterexample: with the `cn` data set mapping the nav key `about`
to the empty string and the `en` data set mapping it to `About`, a
cn→en→cn toggle (both fetches succeeding, data sets unchanged) does not
restore the originally rendered DOM: the nav link keeps the English
label. -/
theorem toggleLanguage_roundtrip_cex :
    ((toggleLanguage (Except.ok cnDataCex)
        ((toggleLanguage (Except.ok enDataCex) stCex).1)).1).dom
      ≠ stCex.dom := by
  intro h
  exact absurd (congrArg Dom.navLinks h) (by decide)

/-- C5 (amended): toggling the locale twice restores every rendered DOM
target, provided both fetches succeed, each locale's data set is unchanged
between its two uses, and every nav link key maps to a truthy (nonempty)
label in the original locale's nav mapping; links whose key is falsy there
may retain the other locale's label, which is the only exception. -/
theorem toggleLanguage_roundtrip (dL dL' : Dataset) (d : Dom) (st : AppState)
    (hL : st.currentLang = "cn" ∨ st.currentLang = "en")
    (hdom : st.dom = renderAll dL st.currentLang d)
    (hnav : ∀ l ∈ d.navLinks, ∃ v, lookupNav dL.nav l.key = some v ∧ v ≠ "") :
    ((toggleLanguage (Except.ok dL)
        ((toggleLanguage (Except.ok dL') st).1)).1).dom = st.dom := by
  rcases hL with hL | hL
  · have hstep : ((toggleLanguage (Except.ok dL)
        ((toggleLanguage (Except.ok dL') st).1)).1).dom
        = renderAll dL "cn" (renderAll dL' "en" st.dom) := by
      simp [toggleLanguage, hL]
    rw [hstep, hdom, hL]
    exact renderAll_roundtrip dL dL' "cn" "en" d hnav
  · have hstep : ((toggleLanguage (Except.ok dL)
        ((toggleLanguage (Except.ok dL') st).1)).1).dom
        = renderAll dL "en" (renderAll dL' "cn" st.dom) := by
      simp [toggleLanguage, hL]
    rw [hstep, hdom, hL]
    exact renderAll_roundtrip dL dL' "en" "cn" d hnav

/-- Witness for C5 (amended) at concrete data sets with truthy nav labels. -/
theorem toggleLanguage_roundtrip_witness :
    ((toggleLanguage (Except.ok cnDataW)
        ((toggleLanguage (Except.ok enDataW) stW).1)).1).dom = stW.dom := by
  apply toggleLanguage_roundtrip cnDataW enDataW domW stW (Or.inl rfl) rfl
  intro l hl
  simp [domW, emptyDom] at hl
  subst hl
  exact ⟨"关于", rfl, by decide⟩
